import Mathlib

/-!
Shallow embedding of the erc20 transaction-parsing crate (files
src/util.rs, src/erc20.rs, src/error.rs, src/transfer.rs, src/transaction.rs).

Modelling conventions:
* a Rust u8 byte is a Fin 256;
* H160 and H256 are their raw byte strings, modelled as List Byte with a
  length side condition (20 resp. 32) carried in theorem hypotheses;
* U256 is a Nat, with a side condition n < 2 ^ 256 where it matters;
* a method taking &mut self and returning Result A, ERC20Error is modelled
  as a state-passing function Cursor -> Except ERC20Error A × Cursor, so
  that the state after a failing call is also visible (the Rust methods
  mutate self in place);
* panic! is modelled as Option.none in the accessor functions;
* the HashMap iteration in erc20.rs is modelled as iteration over an
  association list in the textual order of the source; since the keys are
  pairwise distinct, at most one entry can match, so the iteration order
  cannot affect any result.
-/

namespace Erc20

/-- Decidable equality of Except results, so that concrete runs of the
fallible operations can be checked by decide. -/
instance {ε α : Type} [DecidableEq ε] [DecidableEq α] : DecidableEq (Except ε α) :=
  fun x y =>
    match x, y with
    | .ok a, .ok b =>
      if h : a = b then .isTrue (by rw [h])
      else .isFalse (by intro hh; cases hh; exact h rfl)
    | .ok _, .error _ => .isFalse (by intro hh; cases hh)
    | .error _, .ok _ => .isFalse (by intro hh; cases hh)
    | .error a, .error b =>
      if h : a = b then .isTrue (by rw [h])
      else .isFalse (by intro hh; cases hh; exact h rfl)

/-- A Rust u8. -/
abbrev Byte := Fin 256

/-- Possible transaction errors (src/error.rs, enum ERC20Error). -/
inductive ERC20Error where
  /-- Returned when the transaction is not an Ethereum transfer nor an ERC20 transfer. -/
  | NoTransferTransaction
  /-- Unexpected size for the input. -/
  | UnexpectedSize
  /-- The end of the input was found before expected. -/
  | UnexpectedEndOfData
  /-- Returned when the type or value used is not expected for the operation. -/
  | UnexpectedType
  deriving DecidableEq, Repr

/-- Cursor over a byte buffer (src/util.rs, struct BytesToFixedNumber). -/
structure BytesToFixedNumber where
  data : List Byte
  index : Nat
  deriving DecidableEq, Repr

namespace BytesToFixedNumber

/-- From Vec u8 for BytesToFixedNumber: fresh cursor at offset 0. -/
def ofVec (data : List Byte) : BytesToFixedNumber := ⟨data, 0⟩

/-- next_vec: returns the next size bytes and advances the offset, or fails
with UnexpectedEndOfData leaving the cursor unchanged.  The Rust loop
collects data[index + i] for i in 0..size, which under the bound
index + size ≤ data.len() is the slice take size (drop index data). -/
def next_vec (s : BytesToFixedNumber) (size : Nat) :
    Except ERC20Error (List Byte) × BytesToFixedNumber :=
  if s.index + size > s.data.length then
    (.error .UnexpectedEndOfData, s)
  else
    (.ok ((s.data.drop s.index).take size), ⟨s.data, s.index + size⟩)

/-- skip: advances the offset by size bytes, or fails with
UnexpectedEndOfData leaving the cursor unchanged. -/
def skip (s : BytesToFixedNumber) (size : Nat) :
    Except ERC20Error Unit × BytesToFixedNumber :=
  if s.index + size > s.data.length then
    (.error .UnexpectedEndOfData, s)
  else
    (.ok (), ⟨s.data, s.index + size⟩)

/-- next_h160_not_padded: reads exactly 20 bytes (the copy into a
fixed-size array is the identity on the byte string). -/
def next_h160_not_padded (s : BytesToFixedNumber) :
    Except ERC20Error (List Byte) × BytesToFixedNumber :=
  s.next_vec 20

/-- next_h160: skips the 12 padding bytes of a 32-byte word, then reads the
20-byte address.  Note that a failure of the second step does not undo the
skip of the first. -/
def next_h160 (s : BytesToFixedNumber) :
    Except ERC20Error (List Byte) × BytesToFixedNumber :=
  match s.skip 12 with
  | (.error e, s') => (.error e, s')
  | (.ok _, s') => s'.next_h160_not_padded

/-- next_h256: reads a 32-byte word as a raw hash value. -/
def next_h256 (s : BytesToFixedNumber) :
    Except ERC20Error (List Byte) × BytesToFixedNumber :=
  s.next_vec 32

/-- Big-endian value of a byte string (the web3 U256 conversion from a
32-byte array interprets it as a big-endian unsigned integer). -/
def beVal (l : List Byte) : Nat :=
  l.foldl (fun acc b => acc * 256 + b.val) 0

/-- next_u256: reads a 32-byte word as a big-endian 256-bit unsigned
integer. -/
def next_u256 (s : BytesToFixedNumber) :
    Except ERC20Error Nat × BytesToFixedNumber :=
  match s.next_vec 32 with
  | (.error e, s') => (.error e, s')
  | (.ok l, s') => (.ok (beVal l), s')

end BytesToFixedNumber

/-- Byte-string builder (src/util.rs, struct FixedNumberToBytes). -/
structure FixedNumberToBytes where
  data : List Byte
  deriving DecidableEq, Repr

namespace FixedNumberToBytes

/-- Default: empty buffer. -/
def default : FixedNumberToBytes := ⟨[]⟩

/-- push_vec: appends the given bytes. -/
def push_vec (b : FixedNumberToBytes) (vec : List Byte) : FixedNumberToBytes :=
  ⟨b.data ++ vec⟩

/-- push_h160_not_padded: appends the 20 address bytes with no padding. -/
def push_h160_not_padded (b : FixedNumberToBytes) (value : List Byte) :
    FixedNumberToBytes :=
  ⟨b.data ++ value⟩

/-- push_h160: pushes 12 zero bytes, then the 20 address bytes. -/
def push_h160 (b : FixedNumberToBytes) (value : List Byte) : FixedNumberToBytes :=
  (b.push_vec (List.replicate 12 (0 : Byte))).push_h160_not_padded value

/-- push_h256: appends the 32 hash bytes. -/
def push_h256 (b : FixedNumberToBytes) (value : List Byte) : FixedNumberToBytes :=
  ⟨b.data ++ value⟩

/-- Big-endian byte string of width w of a natural number: beBytes w n
lists n.byte (w-1), ..., n.byte 0, most significant first. -/
def beBytes : Nat → Nat → List Byte
  | 0, _ => []
  | w + 1, n => (⟨n / 256 ^ w % 256, Nat.mod_lt _ (by norm_num)⟩ : Byte) :: beBytes w n

/-- push_u256: pushes value.byte i for i = 31 down to 0, i.e. the 32-byte
big-endian representation. -/
def push_u256 (b : FixedNumberToBytes) (value : Nat) : FixedNumberToBytes :=
  ⟨b.data ++ beBytes 32 value⟩

end FixedNumberToBytes

/-- ERC20 method operation (src/erc20.rs, enum ERC20Method). -/
inductive ERC20Method where
  | Allowance
  | Approve
  | BalanceOf
  | TotalSupply
  | Transfer
  | TransferFrom
  | Unidentified
  deriving DecidableEq, Repr

namespace ERC20Method

/-- TryFrom ERC20Method for u8 4: the fixed 4-byte selector of each named
method; Unidentified has none and fails with UnexpectedType. -/
def toSelector : ERC20Method → Except ERC20Error (List Byte)
  | .Allowance => .ok [0xdd, 0x62, 0xed, 0x3e]
  | .Approve => .ok [0x09, 0x5e, 0xa7, 0xb3]
  | .BalanceOf => .ok [0x70, 0xa0, 0x82, 0x31]
  | .TotalSupply => .ok [0x18, 0x16, 0x0d, 0xdd]
  | .Transfer => .ok [0xa9, 0x05, 0x9c, 0xbb]
  | .TransferFrom => .ok [0x23, 0xb8, 0x72, 0xdd]
  | .Unidentified => .error .UnexpectedType

/-- The selector table iterated by From Vec u8 for ERC20Method, as an
association list (HashMap iteration order is irrelevant: the six selectors
are pairwise distinct, so at most one entry matches a given buffer). -/
def method_encoding : List (ERC20Method × List Byte) :=
  [(.Allowance, [0xdd, 0x62, 0xed, 0x3e]),
   (.Approve, [0x09, 0x5e, 0xa7, 0xb3]),
   (.BalanceOf, [0x70, 0xa0, 0x82, 0x31]),
   (.TotalSupply, [0x18, 0x16, 0x0d, 0xdd]),
   (.Transfer, [0xa9, 0x05, 0x9c, 0xbb]),
   (.TransferFrom, [0x23, 0xb8, 0x72, 0xdd])]

/-- Helper for fromBytes: first table entry whose selector is a prefix of
the data (data.starts_with in the source). -/
def findMethod (data : List Byte) : List (ERC20Method × List Byte) → ERC20Method
  | [] => .Unidentified
  | (key, value) :: rest =>
    if value.isPrefixOf data then key else findMethod data rest

/-- From Vec u8 for ERC20Method: reverse selector lookup.  A buffer with
fewer than 4 bytes, or whose first 4 bytes match no selector, is
Unidentified. -/
def fromBytes (data : List Byte) : ERC20Method :=
  if data.isEmpty || data.length < 4 then .Unidentified
  else findMethod data method_encoding

end ERC20Method

/-- Known ERC20 contract addresses (src/erc20.rs, enum ContractAddress). -/
inductive ContractAddress where
  | BAT
  | BNB
  | BUSD
  | LINK
  | TUSD
  | USDC
  | USDT
  | WBTC
  | cDAI
  | CRO
  | OKB
  | LEO
  | WFIL
  | VEN
  | DAI
  | UNI
  /-- Any address that is not a known token contract, wrapping the raw address. -/
  | Unidentified (address : List Byte)
  deriving DecidableEq, Repr

namespace ContractAddress

/-- The symbol/address table of contract_and_address, as an association
list in the textual order of the source (HashMap iteration order is
irrelevant: symbols and addresses are pairwise distinct). -/
def contract_and_address : List (ContractAddress × List Byte) :=
  [(.TUSD, [0x00, 0x00, 0x00, 0x00, 0x00, 0x08, 0x5d, 0x47, 0x80, 0xb7, 0x31, 0x19, 0xb6, 0x44, 0xae, 0x5e, 0xcd, 0x22, 0xb3, 0x76]),
   (.LINK, [0x51, 0x49, 0x10, 0x77, 0x1a, 0xf9, 0xca, 0x65, 0x6a, 0xf8, 0x40, 0xdf, 0xf8, 0x3e, 0x82, 0x64, 0xec, 0xf9, 0x86, 0xca]),
   (.BNB, [0xb8, 0xc7, 0x74, 0x82, 0xe4, 0x5f, 0x1f, 0x44, 0xde, 0x17, 0x45, 0xf5, 0x2c, 0x74, 0x42, 0x6c, 0x63, 0x1b, 0xdd, 0x52]),
   (.USDC, [0xa0, 0xb8, 0x69, 0x91, 0xc6, 0x21, 0x8b, 0x36, 0xc1, 0xd1, 0x9d, 0x4a, 0x2e, 0x9e, 0xb0, 0xce, 0x36, 0x06, 0xeb, 0x48]),
   (.WBTC, [0x22, 0x60, 0xfa, 0xc5, 0xe5, 0x54, 0x2a, 0x77, 0x3a, 0xa4, 0x4f, 0xbc, 0xfe, 0xdf, 0x7c, 0x19, 0x3b, 0xc2, 0xc5, 0x99]),
   (.cDAI, [0x5d, 0x3a, 0x53, 0x6e, 0x4d, 0x6d, 0xbd, 0x61, 0x14, 0xcc, 0x1e, 0xad, 0x35, 0x77, 0x7b, 0xab, 0x94, 0x8e, 0x36, 0x43]),
   (.OKB, [0x75, 0x23, 0x1f, 0x58, 0xb4, 0x32, 0x40, 0xc9, 0x71, 0x8d, 0xd5, 0x8b, 0x49, 0x67, 0xc5, 0x11, 0x43, 0x42, 0xa8, 0x6c]),
   (.CRO, [0xa0, 0xb7, 0x3e, 0x1f, 0xf0, 0xb8, 0x09, 0x14, 0xab, 0x6f, 0xe0, 0x44, 0x4e, 0x65, 0x84, 0x8c, 0x4c, 0x34, 0x45, 0x0b]),
   (.WFIL, [0x6e, 0x1a, 0x19, 0xf2, 0x35, 0xbe, 0x7e, 0xd8, 0xe3, 0x36, 0x9e, 0xf7, 0x3b, 0x19, 0x6c, 0x07, 0x25, 0x74, 0x94, 0xde]),
   (.BAT, [0x0d, 0x87, 0x75, 0xf6, 0x48, 0x43, 0x06, 0x79, 0xa7, 0x09, 0xe9, 0x8d, 0x2b, 0x0c, 0xb6, 0x25, 0x0d, 0x28, 0x87, 0xef]),
   (.BUSD, [0x4f, 0xab, 0xb1, 0x45, 0xd6, 0x46, 0x52, 0xa9, 0x48, 0xd7, 0x25, 0x33, 0x02, 0x3f, 0x6e, 0x7a, 0x62, 0x3c, 0x7c, 0x53]),
   (.USDT, [0xda, 0xc1, 0x7f, 0x95, 0x8d, 0x2e, 0xe5, 0x23, 0xa2, 0x20, 0x62, 0x06, 0x99, 0x45, 0x97, 0xc1, 0x3d, 0x83, 0x1e, 0xc7]),
   (.LEO, [0x2a, 0xf5, 0xd2, 0xad, 0x76, 0x74, 0x11, 0x91, 0xd1, 0x5d, 0xfe, 0x7b, 0xf6, 0xac, 0x92, 0xd4, 0xbd, 0x91, 0x2c, 0xa3]),
   (.VEN, [0xd8, 0x50, 0x94, 0x2e, 0xf8, 0x81, 0x1f, 0x2a, 0x86, 0x66, 0x92, 0xa6, 0x23, 0x01, 0x1b, 0xde, 0x52, 0xa4, 0x62, 0xc1]),
   (.DAI, [0x6b, 0x17, 0x54, 0x74, 0xe8, 0x90, 0x94, 0xc4, 0x4d, 0xa9, 0x8b, 0x95, 0x4e, 0xed, 0xea, 0xc4, 0x95, 0x27, 0x1d, 0x0f]),
   (.UNI, [0x1f, 0x98, 0x40, 0xa8, 0x5d, 0x5a, 0xf5, 0xbf, 0x1d, 0x17, 0x62, 0xf9, 0x25, 0xbd, 0xad, 0xdc, 0x42, 0x01, 0xf9, 0x84])]

/-- Helper for fromH160: first table entry whose address equals the given
one. -/
def findByAddress (address : List Byte) :
    List (ContractAddress × List Byte) → Option ContractAddress
  | [] => none
  | (contract, address_v) :: rest =>
    if address_v = address then some contract else findByAddress address rest

/-- From H160 for ContractAddress: the matching symbol, or Unidentified
wrapping the raw address. -/
def fromH160 (address : List Byte) : ContractAddress :=
  match findByAddress address contract_and_address with
  | some contract => contract
  | none => .Unidentified address

/-- Helper for toH160: address of the first table entry whose symbol
equals the given contract. -/
def findByContract (c : ContractAddress) :
    List (ContractAddress × List Byte) → Option (List Byte)
  | [] => none
  | (contract, address) :: rest =>
    if c = contract then some address else findByContract c rest

/-- From ContractAddress for H160: the known address of a named symbol, or
the wrapped raw address for Unidentified.  The remaining branch panics in
the source; panic is modelled as none. -/
def toH160 (contract_address : ContractAddress) : Option (List Byte) :=
  match findByContract contract_address contract_and_address with
  | some address => some address
  | none =>
    match contract_address with
    | .Unidentified address => some address
    | _ => none

end ContractAddress

/-- Type of the asset transfer (src/transfer.rs, enum TransferType). -/
inductive TransferType where
  | Ethereum
  | ERC20
  deriving DecidableEq, Repr

/-- A web3 transaction record (web3::types::Transaction), with byte-string
addresses and hashes and Nat numeric fields. -/
structure Transaction where
  hash : List Byte
  nonce : Nat
  block_hash : Option (List Byte)
  block_number : Option Nat
  transaction_index : Option Nat
  «from» : List Byte
  «to» : Option (List Byte)
  value : Nat
  gas_price : Nat
  gas : Nat
  input : List Byte
  raw : Option (List Byte)
  deriving DecidableEq, Repr

/-- Smart contract invocation transaction (src/transaction.rs, enum
TransactionContractInvocation). -/
inductive TransactionContractInvocation where
  | ERC20 (method : ERC20Method) (transaction : Transaction)
  | Other (transaction : Transaction)
  deriving DecidableEq, Repr

namespace TransactionContractInvocation

/-- From Transaction for TransactionContractInvocation: reverse selector
lookup on the call-data; Unidentified is Other, a named method is ERC20. -/
def fromTransaction (transaction : Transaction) : TransactionContractInvocation :=
  match ERC20Method.fromBytes transaction.input with
  | .Unidentified => .Other transaction
  | method => .ERC20 method transaction

end TransactionContractInvocation

/-- Classified Ethereum transaction (src/transaction.rs, enum
ParsedTransaction). -/
inductive ParsedTransaction where
  | EthereumTransfer (transaction : Transaction)
  | ContractInvocation (invocation : TransactionContractInvocation)
  | ContractCreation (transaction : Transaction)
  | Other (transaction : Transaction)
  deriving DecidableEq, Repr

namespace ParsedTransaction

/-- From Transaction for ParsedTransaction: the transaction classifier. -/
def fromTransaction (transaction : Transaction) : ParsedTransaction :=
  match transaction.to with
  | none =>
    if transaction.input.isEmpty then .Other transaction
    else .ContractCreation transaction
  | some _ =>
    if !transaction.input.isEmpty then
      .ContractInvocation (TransactionContractInvocation.fromTransaction transaction)
    else .Other transaction

end ParsedTransaction

/-- Transaction and transfer-type pair (src/transaction.rs, struct
TransactionAndTransferType). -/
structure TransactionAndTransferType where
  transaction : Transaction
  transfer_type : TransferType
  deriving DecidableEq, Repr

namespace TransactionAndTransferType

/-- TryFrom Transaction for TransactionAndTransferType: accepts an
EthereumTransfer classification or a contract invocation whose method is
Transfer or TransferFrom; everything else fails with
NoTransferTransaction. -/
def tryFrom (value : Transaction) : Except ERC20Error TransactionAndTransferType :=
  match ParsedTransaction.fromTransaction value with
  | .EthereumTransfer transaction => .ok ⟨transaction, .Ethereum⟩
  | .ContractInvocation contract_invocation =>
    match contract_invocation with
    | .ERC20 method transaction =>
      match method with
      | .Transfer => .ok ⟨transaction, .ERC20⟩
      | .TransferFrom => .ok ⟨transaction, .ERC20⟩
      | _ => .error .NoTransferTransaction
    | .Other _ => .error .NoTransferTransaction
  | .ContractCreation _ => .error .NoTransferTransaction
  | .Other _ => .error .NoTransferTransaction

/-- get_from_to_value: recomputes the canonical (from, to, value) triple on
every call.  For the ERC20 case it re-resolves the invocation from the stored
transaction and re-decodes the call-data with a fresh cursor; the result of
the initial next_vec 4 (the selector skip) is discarded in the source
(let underscore-ignore), so a failure there is swallowed and the cursor is
left unmoved in that case. -/
def get_from_to_value (self : TransactionAndTransferType) :
    Except ERC20Error (List Byte × List Byte × Nat) :=
  match self.transfer_type with
  | .Ethereum =>
    match self.transaction.to with
    | some v => .ok (self.transaction.from, v, self.transaction.value)
    | none => .error .NoTransferTransaction
  | .ERC20 =>
    match TransactionContractInvocation.fromTransaction self.transaction with
    | .ERC20 method transaction =>
      match method with
      | .Transfer =>
        let resp := BytesToFixedNumber.ofVec transaction.input
        let resp := match resp.next_vec 4 with
          | (.ok _, s) => s
          | (.error _, s) => s
        match resp.next_h160 with
        | (.error e, _) => .error e
        | (.ok to_v, resp) =>
          match resp.next_u256 with
          | (.error e, _) => .error e
          | (.ok value_v, _) => .ok (transaction.from, to_v, value_v)
      | .TransferFrom =>
        let resp := BytesToFixedNumber.ofVec transaction.input
        let resp := match resp.next_vec 4 with
          | (.ok _, s) => s
          | (.error _, s) => s
        match resp.next_h160 with
        | (.error e, _) => .error e
        | (.ok from_v, resp) =>
          match resp.next_h160 with
          | (.error e, _) => .error e
          | (.ok to_v, resp) =>
            match resp.next_u256 with
            | (.error e, _) => .error e
            | (.ok value_v, _) => .ok (from_v, to_v, value_v)
      | _ => .error .NoTransferTransaction
    | .Other _ => .error .NoTransferTransaction

/-- Transfer::from accessor: the sender, recomputed through
get_from_to_value on every call; an extraction failure panics in the
source, modelled as none. -/
def «from» (self : TransactionAndTransferType) : Option (List Byte) :=
  match self.get_from_to_value with
  | .ok (the_from, _, _) => some the_from
  | .error _ => none

/-- Transfer::to accessor: the recipient, recomputed through
get_from_to_value on every call; an extraction failure panics in the
source, modelled as none. -/
def «to» (self : TransactionAndTransferType) : Option (List Byte) :=
  match self.get_from_to_value with
  | .ok (_, the_to, _) => some the_to
  | .error _ => none

/-- Transfer::contract accessor: none for an Ethereum transfer, the
transaction recipient for an ERC20 transfer; an ERC20 transfer with no
recipient panics in the source, modelled as the outer none. -/
def contract (self : TransactionAndTransferType) : Option (Option (List Byte)) :=
  match self.transfer_type with
  | .Ethereum => some none
  | .ERC20 =>
    match self.transaction.to with
    | none => none
    | some to_v => some (some to_v)

/-- Transfer::value accessor: the amount, recomputed through
get_from_to_value on every call; an extraction failure panics in the
source, modelled as none. -/
def value (self : TransactionAndTransferType) : Option Nat :=
  match self.get_from_to_value with
  | .ok (_, _, the_value) => some the_value
  | .error _ => none

/-- Transfer::tx_hash accessor: a direct field read. -/
def tx_hash (self : TransactionAndTransferType) : List Byte :=
  self.transaction.hash

/-- Transfer::block_hash accessor: a direct field read. -/
def block_hash (self : TransactionAndTransferType) : Option (List Byte) :=
  self.transaction.block_hash

/-- Transfer::block_number accessor: a direct field read. -/
def block_number (self : TransactionAndTransferType) : Option Nat :=
  self.transaction.block_number

/-- Transfer::transaction_index accessor: a direct field read. -/
def transaction_index (self : TransactionAndTransferType) : Option Nat :=
  self.transaction.transaction_index

end TransactionAndTransferType

/-! Statement-side helpers: discriminators and the table of the spec,
used only to state the claims. -/

/-- True exactly on the EthereumTransfer category. -/
def ParsedTransaction.isEthereumTransferB : ParsedTransaction → Bool
  | .EthereumTransfer _ => true
  | _ => false

/-- True exactly on the ContractInvocation category. -/
def ParsedTransaction.isContractInvocationB : ParsedTransaction → Bool
  | .ContractInvocation _ => true
  | _ => false

/-- True exactly on the ContractCreation category. -/
def ParsedTransaction.isContractCreationB : ParsedTransaction → Bool
  | .ContractCreation _ => true
  | _ => false

/-- True exactly on the Other category. -/
def ParsedTransaction.isOtherB : ParsedTransaction → Bool
  | .Other _ => true
  | _ => false

/-- True exactly on the classifications the extractor accepts: an
EthereumTransfer, or a contract invocation whose method is Transfer or
TransferFrom. -/
def ParsedTransaction.isTransferShaped : ParsedTransaction → Bool
  | .EthereumTransfer _ => true
  | .ContractInvocation (.ERC20 .Transfer _) => true
  | .ContractInvocation (.ERC20 .TransferFrom _) => true
  | _ => false

/-- The classification table actually implemented by the code, written
out row by row (recipient present or absent crossed with call-data empty
or non-empty), to be compared with the classifier. -/
def classifySpecTable (t : Transaction) : ParsedTransaction :=
  match t.to, t.input with
  | none, [] => .Other t
  | none, _ => .ContractCreation t
  | some _, [] => .Other t
  | some _, _ => .ContractInvocation (TransactionContractInvocation.fromTransaction t)

/-! Concrete example records used by counterexamples and witnesses. -/

/-- A concrete sender address. -/
def addrA : List Byte := List.replicate 20 1

/-- A concrete recipient and contract address. -/
def addrB : List Byte := List.replicate 20 9

/-- Well-formed call-data of a Transfer token call: the 4-byte selector, a
32-byte word holding a recipient address, and a 32-byte word holding the
amount 2. -/
def transferCallData : List Byte :=
  [0xa9, 0x05, 0x9c, 0xbb] ++ List.replicate 12 0 ++ List.replicate 20 2 ++
    (List.replicate 31 0 ++ [2])

/-- Call-data of a TransferFrom token call truncated to 40 bytes: the
selector, one full 32-byte address word, and 4 stray bytes; the second
address and the amount are missing. -/
def transferFromCallData40 : List Byte :=
  [0x23, 0xb8, 0x72, 0xdd] ++ List.replicate 12 0 ++ List.replicate 20 2 ++
    List.replicate 4 0

/-- A transaction template: only the recipient and the call-data vary in
the examples. -/
def mkTx (to_v : Option (List Byte)) (input : List Byte) : Transaction :=
  { hash := List.replicate 32 3, nonce := 0, block_hash := none,
    block_number := none, transaction_index := none,
    «from» := addrA, «to» := to_v, value := 7,
    gas_price := 0, gas := 0, input := input, raw := none }

/-- A well-formed ERC20 Transfer transaction. -/
def txTransfer : Transaction := mkTx (some addrB) transferCallData

/-- A transaction whose call-data is just the Transfer selector, with the
arguments missing. -/
def txSelectorOnly : Transaction := mkTx (some addrB) [0xa9, 0x05, 0x9c, 0xbb]

/-- A TransferFrom transaction with call-data truncated to 40 bytes. -/
def txTransferFrom40 : Transaction := mkTx (some addrB) transferFromCallData40

/-- A contract-creation transaction: no recipient, non-empty call-data. -/
def txCreate : Transaction := mkTx none [1]

/-- A transaction with a recipient and empty call-data. -/
def txRecipientEmpty : Transaction := mkTx (some addrB) []

/-- A transaction with a recipient and call-data that is no token call. -/
def txRecipientJunk : Transaction := mkTx (some addrB) [1]

/-- An address that belongs to no known token contract. -/
def unknownAddr : List Byte := [1, 2, 3] ++ List.replicate 17 0

/-- The canonical USDC contract address. -/
def usdcAddr : List Byte :=
  [0xa0, 0xb8, 0x69, 0x91, 0xc6, 0x21, 0x8b, 0x36, 0xc1, 0xd1, 0x9d, 0x4a,
   0x2e, 0x9e, 0xb0, 0xce, 0x36, 0x06, 0xeb, 0x48]

end Erc20

namespace Erc20

/-- C9: the classifier is total and deterministic: being a Lean function
of the transaction record it never fails and never panics, and for every
transaction record exactly one of the four categories holds. -/
theorem c9_classifier_total (t : Transaction) :
    (ParsedTransaction.fromTransaction t).isEthereumTransferB.toNat +
      (ParsedTransaction.fromTransaction t).isContractInvocationB.toNat +
      (ParsedTransaction.fromTransaction t).isContractCreationB.toNat +
      (ParsedTransaction.fromTransaction t).isOtherB.toNat = 1 := by
  cases hp : ParsedTransaction.fromTransaction t <;>
    simp [ParsedTransaction.isEthereumTransferB, ParsedTransaction.isContractInvocationB,
      ParsedTransaction.isContractCreationB, ParsedTransaction.isOtherB]

/-- C1, counterexample: a transaction with a present recipient and
non-empty call-data is classified ContractInvocation, not
EthereumTransfer as the claim states, and a present recipient with empty
call-data is classified Other, not ContractInvocation. -/
theorem c1_counterexample :
    ParsedTransaction.fromTransaction txRecipientJunk =
      .ContractInvocation (.Other txRecipientJunk) ∧
    (ParsedTransaction.fromTransaction txRecipientJunk).isEthereumTransferB = false ∧
    ParsedTransaction.fromTransaction txRecipientEmpty = .Other txRecipientEmpty ∧
    (ParsedTransaction.fromTransaction txRecipientEmpty).isContractInvocationB = false := by
  refine ⟨by decide, by decide, by decide, by decide⟩

/-- C1, amended: classification follows the table implemented by the
code: recipient absent with empty call-data is Other, absent with
non-empty call-data is ContractCreation, present with non-empty call-data
is ContractInvocation (resolved through the selector lookup), and present
with empty call-data is Other. -/
theorem c1_amended_classification (t : Transaction) :
    ParsedTransaction.fromTransaction t = classifySpecTable t := by
  unfold ParsedTransaction.fromTransaction classifySpecTable
  cases ht : t.to <;> cases hin : t.input <;> simp [ht, hin]

/-- C3: constructing a TransactionAndTransferType succeeds exactly when
the transaction classifies as EthereumTransfer or as a contract
invocation whose method is Transfer or TransferFrom, and for every other
classification it fails with NoTransferTransaction. -/
theorem c3_construction_iff_transfer_shaped (t : Transaction) :
    ((TransactionAndTransferType.tryFrom t).isOk = true ↔
      (ParsedTransaction.fromTransaction t).isTransferShaped = true) ∧
    ((ParsedTransaction.fromTransaction t).isTransferShaped = false →
      TransactionAndTransferType.tryFrom t = .error .NoTransferTransaction) := by
  unfold TransactionAndTransferType.tryFrom
  cases hp : ParsedTransaction.fromTransaction t with
  | EthereumTransfer tx => simp [ParsedTransaction.isTransferShaped, Except.isOk, Except.toBool]
  | ContractInvocation inv =>
    cases inv with
    | ERC20 m tx =>
      cases m <;> simp [ParsedTransaction.isTransferShaped, Except.isOk, Except.toBool]
    | Other tx => simp [ParsedTransaction.isTransferShaped, Except.isOk, Except.toBool]
  | ContractCreation tx => simp [ParsedTransaction.isTransferShaped, Except.isOk, Except.toBool]
  | Other tx => simp [ParsedTransaction.isTransferShaped, Except.isOk, Except.toBool]

/-- C3, witness: the well-formed Transfer transaction constructs
successfully, and the contract-creation transaction fails with
NoTransferTransaction. -/
theorem c3_witness :
    (TransactionAndTransferType.tryFrom txTransfer).isOk = true ∧
    TransactionAndTransferType.tryFrom txCreate = .error .NoTransferTransaction :=
  ⟨(c3_construction_iff_transfer_shaped txTransfer).1.mpr (by decide),
   (c3_construction_iff_transfer_shaped txCreate).2 (by decide)⟩

/-- Inversion: a ContractInvocation classification forces a present
recipient, and its payload is the resolved invocation of the same
transaction. -/
theorem parse_contractInvocation_inv {t : Transaction}
    {inv : TransactionContractInvocation}
    (h : ParsedTransaction.fromTransaction t = .ContractInvocation inv) :
    t.to ≠ none ∧ inv = TransactionContractInvocation.fromTransaction t := by
  unfold ParsedTransaction.fromTransaction at h
  cases ht : t.to <;> rw [ht] at h <;> dsimp only at h <;>
    split at h <;> simp_all

/-- Inversion: an ERC20 invocation carries the original transaction and
the method resolved from its call-data. -/
theorem invocation_erc20_inv {t tx : Transaction} {m : ERC20Method}
    (h : TransactionContractInvocation.fromTransaction t = .ERC20 m tx) :
    tx = t ∧ m = ERC20Method.fromBytes t.input := by
  unfold TransactionContractInvocation.fromTransaction at h
  cases hm : ERC20Method.fromBytes t.input <;> rw [hm] at h <;> simp_all

/-- C5: the classifier never produces the EthereumTransfer category, and
every successfully constructed TransactionAndTransferType has transfer
type ERC20 and a contract accessor that returns the (present) recipient. -/
theorem c5_no_ethereum_transfer (t : Transaction) :
    (∀ tx, ParsedTransaction.fromTransaction t ≠ .EthereumTransfer tx) ∧
    (∀ v, TransactionAndTransferType.tryFrom t = .ok v →
      v.transfer_type = .ERC20 ∧
      v.contract = some v.transaction.to ∧ v.transaction.to ≠ none) := by
  have hnoeth : ∀ tx, ParsedTransaction.fromTransaction t ≠ .EthereumTransfer tx := by
    intro tx
    unfold ParsedTransaction.fromTransaction
    cases ht : t.to <;> dsimp only <;> split <;> simp
  refine ⟨hnoeth, ?_⟩
  intro v hv
  unfold TransactionAndTransferType.tryFrom at hv
  cases hp : ParsedTransaction.fromTransaction t with
  | EthereumTransfer tx => exact absurd hp (hnoeth tx)
  | ContractInvocation inv =>
    rw [hp] at hv
    dsimp only at hv
    obtain ⟨hto, hinv⟩ := parse_contractInvocation_inv hp
    cases inv with
    | ERC20 m tx =>
      obtain ⟨htx, _⟩ := invocation_erc20_inv hinv.symm
      subst htx
      cases m <;> dsimp only at hv
      case Transfer =>
        cases hv
        refine ⟨rfl, ?_, hto⟩
        unfold TransactionAndTransferType.contract
        cases hto3 : Transaction.to tx with
        | none => exact absurd hto3 hto
        | some a => simp [hto3]
      case TransferFrom =>
        cases hv
        refine ⟨rfl, ?_, hto⟩
        unfold TransactionAndTransferType.contract
        cases hto3 : Transaction.to tx with
        | none => exact absurd hto3 hto
        | some a => simp [hto3]
      all_goals cases hv
    | Other tx => dsimp only at hv; cases hv
  | ContractCreation tx => rw [hp] at hv; exact absurd hv (by simp)
  | Other tx => rw [hp] at hv; exact absurd hv (by simp)

/-- C5, witness: the concrete Transfer transaction constructs with
transfer type ERC20 and a present contract. -/
theorem c5_witness :
    (⟨txTransfer, .ERC20⟩ : TransactionAndTransferType).transfer_type = .ERC20 ∧
    (⟨txTransfer, .ERC20⟩ : TransactionAndTransferType).contract =
      some txTransfer.to ∧ txTransfer.to ≠ none := by
  have h := (c5_no_ethereum_transfer txTransfer).2 ⟨txTransfer, .ERC20⟩ (by decide)
  exact ⟨h.1, h.2.1, h.2.2⟩

/-- C2, counterexample: a transaction whose call-data is only the Transfer
selector constructs successfully, yet the sender and amount accessors
panic at access time (modelled as none) because the call-data is re-decoded
on each access and is too short. -/
theorem c2_counterexample :
    TransactionAndTransferType.tryFrom txSelectorOnly =
      .ok ⟨txSelectorOnly, .ERC20⟩ ∧
    TransactionAndTransferType.«from» ⟨txSelectorOnly, .ERC20⟩ = none ∧
    TransactionAndTransferType.value ⟨txSelectorOnly, .ERC20⟩ = none := by
  refine ⟨by decide, by decide, by decide⟩

/-- C2, amended: the sender, recipient and amount accessors re-derive
their value through get_from_to_value on every access, returning its
components when extraction succeeds and panicking (modelled none) when it
fails; the hash, block hash, block number and transaction index accessors
are direct field reads that never fail. -/
theorem c2_amended_accessors (v : TransactionAndTransferType) :
    (∀ f t val, v.get_from_to_value = .ok (f, t, val) →
      v.«from» = some f ∧ v.to = some t ∧ v.value = some val) ∧
    (∀ e, v.get_from_to_value = .error e →
      v.«from» = none ∧ v.to = none ∧ v.value = none) ∧
    v.tx_hash = v.transaction.hash ∧
    v.block_hash = v.transaction.block_hash ∧
    v.block_number = v.transaction.block_number ∧
    v.transaction_index = v.transaction.transaction_index := by
  refine ⟨?_, ?_, rfl, rfl, rfl, rfl⟩
  · intro f t val h
    unfold TransactionAndTransferType.«from» TransactionAndTransferType.to
      TransactionAndTransferType.value
    rw [h]
    exact ⟨rfl, rfl, rfl⟩
  · intro e h
    unfold TransactionAndTransferType.«from» TransactionAndTransferType.to
      TransactionAndTransferType.value
    rw [h]
    exact ⟨rfl, rfl, rfl⟩

/-- C2, amended, witness: on the well-formed Transfer transaction the
accessors return the decoded sender, recipient and amount. -/
theorem c2_amended_accessors_witness :
    TransactionAndTransferType.«from» ⟨txTransfer, .ERC20⟩ = some addrA ∧
    TransactionAndTransferType.to ⟨txTransfer, .ERC20⟩ =
      some (List.replicate 20 2) ∧
    TransactionAndTransferType.value ⟨txTransfer, .ERC20⟩ = some 2 :=
  (c2_amended_accessors ⟨txTransfer, .ERC20⟩).1 addrA (List.replicate 20 2) 2
    (by decide)

/-- The only error next_vec can produce is UnexpectedEndOfData. -/
theorem next_vec_error_eq {s : BytesToFixedNumber} {n : Nat} {e : ERC20Error}
    (h : (s.next_vec n).1 = .error e) : e = .UnexpectedEndOfData := by
  unfold BytesToFixedNumber.next_vec at h
  split at h <;> simp_all

/-- The only error skip can produce is UnexpectedEndOfData. -/
theorem skip_error_eq {s : BytesToFixedNumber} {n : Nat} {e : ERC20Error}
    (h : (s.skip n).1 = .error e) : e = .UnexpectedEndOfData := by
  unfold BytesToFixedNumber.skip at h
  split at h <;> simp_all

/-- The only error next_h160 can produce is UnexpectedEndOfData. -/
theorem next_h160_error_eq {s : BytesToFixedNumber} {e : ERC20Error}
    (h : (s.next_h160).1 = .error e) : e = .UnexpectedEndOfData := by
  unfold BytesToFixedNumber.next_h160 at h
  rcases hsk : s.skip 12 with ⟨r, s'⟩
  rw [hsk] at h
  cases r with
  | error e' =>
    dsimp only at h
    cases h
    exact skip_error_eq (by rw [hsk])
  | ok u =>
    dsimp only at h
    exact next_vec_error_eq h

/-- The only error next_u256 can produce is UnexpectedEndOfData. -/
theorem next_u256_error_eq {s : BytesToFixedNumber} {e : ERC20Error}
    (h : (s.next_u256).1 = .error e) : e = .UnexpectedEndOfData := by
  unfold BytesToFixedNumber.next_u256 at h
  rcases hnv : s.next_vec 32 with ⟨r, s'⟩
  rw [hnv] at h
  cases r with
  | error e' =>
    dsimp only at h
    cases h
    exact next_vec_error_eq (by rw [hnv])
  | ok l => dsimp only at h; cases h

/-- C4: for a constructed value whose stored transaction resolves to a
Transfer or TransferFrom token call, any failure of get_from_to_value is
the verbatim cursor failure UnexpectedEndOfData; in particular, the
TransferFrom transaction with call-data truncated to 40 bytes fails
exactly with UnexpectedEndOfData. -/
theorem c4_cursor_failure_propagation :
    (∀ (v : TransactionAndTransferType) (m : ERC20Method) (tx : Transaction)
        (e : ERC20Error),
      v.transfer_type = .ERC20 →
      TransactionContractInvocation.fromTransaction v.transaction = .ERC20 m tx →
      (m = .Transfer ∨ m = .TransferFrom) →
      v.get_from_to_value = .error e → e = .UnexpectedEndOfData) ∧
    TransactionAndTransferType.get_from_to_value ⟨txTransferFrom40, .ERC20⟩ =
      .error .UnexpectedEndOfData := by
  constructor
  · intro v m tx e h1 h2 h3 h4
    unfold TransactionAndTransferType.get_from_to_value at h4
    rw [h1] at h4
    dsimp only at h4
    rw [h2] at h4
    dsimp only at h4
    rcases h3 with hm | hm <;> subst hm <;> dsimp only at h4
    · split at h4
      · rename_i heq
        cases h4
        exact next_h160_error_eq (by rw [heq])
      · split at h4
        · rename_i heq
          cases h4
          exact next_u256_error_eq (by rw [heq])
        · cases h4
    · split at h4
      · rename_i heq
        cases h4
        exact next_h160_error_eq (by rw [heq])
      · split at h4
        · rename_i heq
          cases h4
          exact next_h160_error_eq (by rw [heq])
        · split at h4
          · rename_i heq
            cases h4
            exact next_u256_error_eq (by rw [heq])
          · cases h4
  · decide

/-- C4, witness: the hypotheses of the propagation statement hold at the
truncated TransferFrom transaction, where extraction indeed fails with
UnexpectedEndOfData. -/
theorem c4_witness : ERC20Error.UnexpectedEndOfData = .UnexpectedEndOfData :=
  c4_cursor_failure_propagation.1 ⟨txTransferFrom40, .ERC20⟩ .TransferFrom
    txTransferFrom40 .UnexpectedEndOfData rfl (by decide) (Or.inr rfl) (by decide)

/-- Bounds for next_vec: the buffer is unchanged, the position does not
decrease and stays within the buffer, and a failing call leaves the whole
cursor unchanged. -/
theorem next_vec_bounds (s : BytesToFixedNumber) (n : Nat)
    (h : s.index ≤ s.data.length) :
    (s.next_vec n).2.data = s.data ∧ s.index ≤ (s.next_vec n).2.index ∧
    (s.next_vec n).2.index ≤ s.data.length ∧
    (∀ e, (s.next_vec n).1 = .error e → (s.next_vec n).2 = s) := by
  unfold BytesToFixedNumber.next_vec
  split
  · exact ⟨rfl, le_refl _, h, fun e _ => rfl⟩
  · rename_i hle
    refine ⟨rfl, ?_, ?_, fun e he => by cases he⟩ <;> dsimp only <;> omega

/-- Bounds for skip, in the same shape as for next_vec. -/
theorem skip_bounds (s : BytesToFixedNumber) (n : Nat)
    (h : s.index ≤ s.data.length) :
    (s.skip n).2.data = s.data ∧ s.index ≤ (s.skip n).2.index ∧
    (s.skip n).2.index ≤ s.data.length ∧
    (∀ e, (s.skip n).1 = .error e → (s.skip n).2 = s) := by
  unfold BytesToFixedNumber.skip
  split
  · exact ⟨rfl, le_refl _, h, fun e _ => rfl⟩
  · rename_i hle
    refine ⟨rfl, ?_, ?_, fun e he => by cases he⟩ <;> dsimp only <;> omega

/-- Bounds for next_u256, derived from those of next_vec. -/
theorem next_u256_bounds (s : BytesToFixedNumber)
    (h : s.index ≤ s.data.length) :
    (s.next_u256).2.data = s.data ∧ s.index ≤ (s.next_u256).2.index ∧
    (s.next_u256).2.index ≤ s.data.length ∧
    (∀ e, (s.next_u256).1 = .error e → (s.next_u256).2 = s) := by
  have hb := next_vec_bounds s 32 h
  unfold BytesToFixedNumber.next_u256
  rcases hnv : s.next_vec 32 with ⟨r, s'⟩
  rw [hnv] at hb
  cases r with
  | error e' =>
    dsimp only
    exact ⟨hb.1, hb.2.1, hb.2.2.1, fun e he => hb.2.2.2 e' rfl⟩
  | ok l =>
    dsimp only
    exact ⟨hb.1, hb.2.1, hb.2.2.1, fun e he => by cases he⟩

/-- C10, counterexample: on a 20-byte buffer, next_h160 fails with
UnexpectedEndOfData yet leaves the read position at 12, not at its
starting value 0: the selector-padding skip succeeded before the 20-byte
read failed. -/
theorem c10_counterexample :
    (BytesToFixedNumber.next_h160 ⟨List.replicate 20 (0 : Byte), 0⟩).1 =
      .error .UnexpectedEndOfData ∧
    (BytesToFixedNumber.next_h160 ⟨List.replicate 20 (0 : Byte), 0⟩).2.index = 12 := by
  refine ⟨by decide, by decide⟩

/-- C10, amended: for every cursor whose position is within its buffer,
each operation keeps the buffer, never decreases the position, and never
moves it past the buffer length; a failing next_vec, skip,
next_h160_not_padded, next_h256 or next_u256 leaves the cursor unchanged,
while a failing next_h160 leaves the position either unchanged or advanced
by exactly the 12 padding bytes it skipped. -/
theorem c10_amended_cursor_invariant (s : BytesToFixedNumber) (n : Nat)
    (h : s.index ≤ s.data.length) :
    ((s.next_vec n).2.data = s.data ∧ s.index ≤ (s.next_vec n).2.index ∧
      (s.next_vec n).2.index ≤ s.data.length ∧
      (∀ e, (s.next_vec n).1 = .error e → (s.next_vec n).2 = s)) ∧
    ((s.skip n).2.data = s.data ∧ s.index ≤ (s.skip n).2.index ∧
      (s.skip n).2.index ≤ s.data.length ∧
      (∀ e, (s.skip n).1 = .error e → (s.skip n).2 = s)) ∧
    ((s.next_h160_not_padded).2.data = s.data ∧
      s.index ≤ (s.next_h160_not_padded).2.index ∧
      (s.next_h160_not_padded).2.index ≤ s.data.length ∧
      (∀ e, (s.next_h160_not_padded).1 = .error e →
        (s.next_h160_not_padded).2 = s)) ∧
    ((s.next_h256).2.data = s.data ∧ s.index ≤ (s.next_h256).2.index ∧
      (s.next_h256).2.index ≤ s.data.length ∧
      (∀ e, (s.next_h256).1 = .error e → (s.next_h256).2 = s)) ∧
    ((s.next_u256).2.data = s.data ∧ s.index ≤ (s.next_u256).2.index ∧
      (s.next_u256).2.index ≤ s.data.length ∧
      (∀ e, (s.next_u256).1 = .error e → (s.next_u256).2 = s)) ∧
    ((s.next_h160).2.data = s.data ∧ s.index ≤ (s.next_h160).2.index ∧
      (s.next_h160).2.index ≤ s.data.length ∧
      (∀ e, (s.next_h160).1 = .error e →
        (s.next_h160).2.index = s.index ∨
          (s.next_h160).2.index = s.index + 12)) := by
  refine ⟨next_vec_bounds s n h, skip_bounds s n h, next_vec_bounds s 20 h,
    next_vec_bounds s 32 h, next_u256_bounds s h, ?_⟩
  have hsk := skip_bounds s 12 h
  unfold BytesToFixedNumber.next_h160
  rcases hs : s.skip 12 with ⟨r, s'⟩
  rw [hs] at hsk
  cases r with
  | error e' =>
    dsimp only
    have hunch : s' = s := hsk.2.2.2 e' rfl
    exact ⟨hsk.1, hsk.2.1, hsk.2.2.1, fun e he => Or.inl (by rw [hunch])⟩
  | ok u =>
    dsimp only
    have hs'le : s'.index ≤ s'.data.length := by
      have h1 : s'.data = s.data := hsk.1
      have h2 : s'.index ≤ s.data.length := hsk.2.2.1
      rw [h1]
      exact h2
    have hnp := next_vec_bounds s' 20 hs'le
    unfold BytesToFixedNumber.next_h160_not_padded
    have hdata : (s'.next_vec 20).2.data = s.data := by rw [hnp.1, hsk.1]
    refine ⟨hdata, le_trans hsk.2.1 hnp.2.1, by rw [← hsk.1]; exact hnp.2.2.1, ?_⟩
    intro e he
    have hunch := hnp.2.2.2 e he
    right
    rw [hunch]
    unfold BytesToFixedNumber.skip at hs
    split at hs
    · simp at hs
    · have hpair := congrArg Prod.snd hs
      dsimp at hpair
      rw [← hpair]

/-- C10, amended, witness: the invariant instantiated on a concrete
20-byte cursor at position 0. -/
theorem c10_witness :
    ((⟨List.replicate 20 (0 : Byte), 0⟩ : BytesToFixedNumber).next_h160).2.index ≤
      (List.replicate 20 (0 : Byte)).length := by
  have h := c10_amended_cursor_invariant ⟨List.replicate 20 (0 : Byte), 0⟩ 5
    (by decide)
  exact h.2.2.2.2.2.2.2.1

/-- C6: for each of the six named methods the forward selector lookup
succeeds and the reverse lookup of any buffer beginning with that selector
recovers the method, while the forward lookup of Unidentified fails with
UnexpectedType. -/
theorem c6_selector_round_trip :
    (∀ m : ERC20Method, m ≠ .Unidentified →
      ∃ sel, m.toSelector = .ok sel ∧
        ∀ rest, ERC20Method.fromBytes (sel ++ rest) = m) ∧
    ERC20Method.toSelector .Unidentified = .error .UnexpectedType := by
  refine ⟨?_, rfl⟩
  intro m hm
  cases m <;> first
    | exact absurd rfl hm
    | · refine ⟨_, rfl, ?_⟩
        intro rest
        simp [ERC20Method.fromBytes, ERC20Method.findMethod,
          ERC20Method.method_encoding, List.isPrefixOf]

/-- C6, witness: the round trip instantiated at the Transfer method with
an empty tail. -/
theorem c6_witness :
    ERC20Method.fromBytes ([0xa9, 0x05, 0x9c, 0xbb] ++ []) = .Transfer := by
  obtain ⟨sel, h1, h2⟩ := c6_selector_round_trip.1 .Transfer (by decide)
  have hsel : sel = [0xa9, 0x05, 0x9c, 0xbb] := by
    rw [ERC20Method.toSelector] at h1
    cases h1
    rfl
  rw [← hsel]
  exact h2 []

/-- The big-endian byte string of width w has length w. -/
theorem beBytes_length (w : Nat) : ∀ n, (FixedNumberToBytes.beBytes w n).length = w := by
  induction w with
  | zero => intro n; rfl
  | succ w ih =>
    intro n
    rw [FixedNumberToBytes.beBytes, List.length_cons, ih]

/-- Folding the big-endian digits of n of width w onto accumulator a
yields a shifted by w bytes plus n reduced modulo 256 ^ w. -/
theorem foldl_beBytes (w : Nat) :
    ∀ n a, (FixedNumberToBytes.beBytes w n).foldl
      (fun acc b => acc * 256 + b.val) a = a * 256 ^ w + n % 256 ^ w := by
  induction w with
  | zero => intro n a; simp [FixedNumberToBytes.beBytes, Nat.mod_one]
  | succ w ih =>
    intro n a
    rw [FixedNumberToBytes.beBytes, List.foldl_cons, ih]
    have hmod : n % (256 ^ w * 256) = n % 256 ^ w + 256 ^ w * (n / 256 ^ w % 256) :=
      Nat.mod_mul
    rw [pow_succ, hmod]
    ring

/-- Decoding the 32-byte big-endian representation of n recovers n. -/
theorem beVal_beBytes {n : Nat} (hn : n < 2 ^ 256) :
    BytesToFixedNumber.beVal (FixedNumberToBytes.beBytes 32 n) = n := by
  unfold BytesToFixedNumber.beVal
  rw [foldl_beBytes]
  have h32 : (256 : Nat) ^ 32 = 2 ^ 256 := by norm_num
  rw [Nat.zero_mul, Nat.zero_add, h32]
  exact Nat.mod_eq_of_lt hn

/-- C7: for every address, hash and 256-bit unsigned integer, pushing the
value with the matching builder operation and reading it back with the
matching cursor operation from the produced buffer returns the original
value exactly. -/
theorem c7_encode_decode_round_trip :
    (∀ a : List Byte, a.length = 20 →
      ((BytesToFixedNumber.ofVec
        ((FixedNumberToBytes.default.push_h160 a).data)).next_h160).1 = .ok a) ∧
    (∀ a : List Byte, a.length = 20 →
      ((BytesToFixedNumber.ofVec
        ((FixedNumberToBytes.default.push_h160_not_padded a).data)).next_h160_not_padded).1 =
          .ok a) ∧
    (∀ h : List Byte, h.length = 32 →
      ((BytesToFixedNumber.ofVec
        ((FixedNumberToBytes.default.push_h256 h).data)).next_h256).1 = .ok h) ∧
    (∀ n : Nat, n < 2 ^ 256 →
      ((BytesToFixedNumber.ofVec
        ((FixedNumberToBytes.default.push_u256 n).data)).next_u256).1 = .ok n) := by
  refine ⟨?_, ?_, ?_, ?_⟩
  · intro a ha
    unfold FixedNumberToBytes.push_h160 FixedNumberToBytes.push_vec
      FixedNumberToBytes.push_h160_not_padded FixedNumberToBytes.default
      BytesToFixedNumber.ofVec BytesToFixedNumber.next_h160
      BytesToFixedNumber.skip BytesToFixedNumber.next_h160_not_padded
      BytesToFixedNumber.next_vec
    simp [ha, List.replicate]
  · intro a ha
    unfold FixedNumberToBytes.push_h160_not_padded FixedNumberToBytes.default
      BytesToFixedNumber.ofVec BytesToFixedNumber.next_h160_not_padded
      BytesToFixedNumber.next_vec
    simp [ha]
  · intro h hh
    unfold FixedNumberToBytes.push_h256 FixedNumberToBytes.default
      BytesToFixedNumber.ofVec BytesToFixedNumber.next_h256
      BytesToFixedNumber.next_vec
    simp [hh]
  · intro n hn
    unfold FixedNumberToBytes.push_u256 FixedNumberToBytes.default
      BytesToFixedNumber.ofVec BytesToFixedNumber.next_u256
      BytesToFixedNumber.next_vec
    simp [beBytes_length]
    rw [List.take_of_length_le (by rw [beBytes_length])]
    exact beVal_beBytes hn

/-- C7, witness: the four round trips at concrete values. -/
theorem c7_witness :
    ((BytesToFixedNumber.ofVec
      ((FixedNumberToBytes.default.push_h160 addrA).data)).next_h160).1 = .ok addrA ∧
    ((BytesToFixedNumber.ofVec
      ((FixedNumberToBytes.default.push_h160_not_padded addrA).data)).next_h160_not_padded).1 =
        .ok addrA ∧
    ((BytesToFixedNumber.ofVec
      ((FixedNumberToBytes.default.push_h256 (List.replicate 32 (3 : Byte))).data)).next_h256).1 =
        .ok (List.replicate 32 (3 : Byte)) ∧
    ((BytesToFixedNumber.ofVec
      ((FixedNumberToBytes.default.push_u256 2).data)).next_u256).1 = .ok 2 :=
  ⟨c7_encode_decode_round_trip.1 addrA (by decide),
   c7_encode_decode_round_trip.2.1 addrA (by decide),
   c7_encode_decode_round_trip.2.2.1 (List.replicate 32 (3 : Byte)) (by decide),
   c7_encode_decode_round_trip.2.2.2 2 (by norm_num)⟩

/-- A successful address lookup returns a symbol paired with that address
in the table. -/
theorem findByAddress_mem :
    ∀ (l : List (ContractAddress × List Byte)) (a : List Byte)
      (c : ContractAddress),
      ContractAddress.findByAddress a l = some c → (c, a) ∈ l := by
  intro l
  induction l with
  | nil => intro a c h; cases h
  | cons hd tl ih =>
    intro a c h
    obtain ⟨c1, a1⟩ := hd
    unfold ContractAddress.findByAddress at h
    split at h
    · rename_i heq
      subst heq
      cases h
      simp
    · exact List.mem_cons_of_mem _ (ih a c h)

/-- C8: resolving any 160-bit address to a ContractAddress and back is the
identity; the canonical USDC address maps to the USDC symbol and back, and
an unknown address maps to Unidentified wrapping it, which resolves back
to the same raw address. -/
theorem c8_contract_address_round_trip :
    (∀ a : List Byte, ContractAddress.toH160 (ContractAddress.fromH160 a) = some a) ∧
    ContractAddress.fromH160 usdcAddr = .USDC ∧
    ContractAddress.toH160 .USDC = some usdcAddr ∧
    ContractAddress.fromH160 unknownAddr = .Unidentified unknownAddr ∧
    ContractAddress.toH160 (.Unidentified unknownAddr) = some unknownAddr := by
  refine ⟨?_, by decide, by decide, by decide, by decide⟩
  intro a
  unfold ContractAddress.fromH160
  rcases hf : ContractAddress.findByAddress a ContractAddress.contract_and_address
    with _ | c
  · dsimp only
    unfold ContractAddress.toH160
    have hnone : ContractAddress.findByContract (.Unidentified a)
        ContractAddress.contract_and_address = none := by
      simp [ContractAddress.findByContract, ContractAddress.contract_and_address]
    rw [hnone]
  · dsimp only
    have hmem := findByAddress_mem _ a c hf
    cases c <;>
      simp only [ContractAddress.contract_and_address, List.mem_cons,
        List.not_mem_nil, or_false, Prod.mk.injEq, reduceCtorEq, false_and,
        false_or, or_false, true_and] at hmem <;>
      (subst hmem; decide)

end Erc20
